import Mathlib

/-!
# DM-IMU serial driver (`dm_imu/src/imu_driver.h`, `src/dm_imu/imu_driver.cpp`)

A shallow embedding of the driver class `dmbot_serial::DmImu`:

* bytes are natural numbers, the packed receive frame is the list of its 57 bytes and the
  fields of `IMU_Receive_Frame` are read at their packed offsets, little-endian;
* a `float` is represented by its IEEE-754 binary32 bit pattern (a natural number), so the
  `reinterpret_cast<float*>` of a `uint32_t` field is the identity on bit patterns;
* `Get_CRC16` comes from `bsp_crc.h`, which is not part of the sources; every definition
  that uses it takes it as a parameter;
* system calls (`open`, `tcgetattr`, `tcsetattr`, `read`, `write`, `close`), thread creation
  and joining, sleeps and diagnostics are recorded in a trace, in program order;
* `std::exit(EXIT_FAILURE)` is an outcome of its own, carrying the process state at exit;
* the counter `error_num` is a 32-bit `int`: it is held as an integer and every `++error_num`
  goes through `wrap_int32`, so that 2147483647 is followed by -2147483648.
-/

namespace dmbot_serial

/-! ## Data model -/

/-- Little-endian 16-bit word at offset `off` of a byte list. -/
def le16 (bs : List Nat) (off : Nat) : Nat :=
  bs.getD off 0 + 256 * bs.getD (off + 1) 0

/-- Little-endian 32-bit word at offset `off` of a byte list. -/
def le32 (bs : List Nat) (off : Nat) : Nat :=
  bs.getD off 0 + 256 * bs.getD (off + 1) 0 + 65536 * bs.getD (off + 2) 0
    + 16777216 * bs.getD (off + 3) 0

/-- The packed (`#pragma pack(1)`) struct `IMU_Receive_Frame`, as its 57 bytes. -/
abbrev IMU_Receive_Frame := List Nat

/-- Value of `sizeof(receive_data)`. -/
def frame_size : Nat := 57

namespace IMU_Receive_Frame

def FrameHeader1 (rx : IMU_Receive_Frame) : Nat := rx.getD 0 0
def flag1 (rx : IMU_Receive_Frame) : Nat := rx.getD 1 0
def slave_id1 (rx : IMU_Receive_Frame) : Nat := rx.getD 2 0
def reg_acc (rx : IMU_Receive_Frame) : Nat := rx.getD 3 0
def accx_u32 (rx : IMU_Receive_Frame) : Nat := le32 rx 4
def accy_u32 (rx : IMU_Receive_Frame) : Nat := le32 rx 8
def accz_u32 (rx : IMU_Receive_Frame) : Nat := le32 rx 12
def crc1 (rx : IMU_Receive_Frame) : Nat := le16 rx 16
def FrameEnd1 (rx : IMU_Receive_Frame) : Nat := rx.getD 18 0

def FrameHeader2 (rx : IMU_Receive_Frame) : Nat := rx.getD 19 0
def flag2 (rx : IMU_Receive_Frame) : Nat := rx.getD 20 0
def slave_id2 (rx : IMU_Receive_Frame) : Nat := rx.getD 21 0
def reg_gyro (rx : IMU_Receive_Frame) : Nat := rx.getD 22 0
def gyrox_u32 (rx : IMU_Receive_Frame) : Nat := le32 rx 23
def gyroy_u32 (rx : IMU_Receive_Frame) : Nat := le32 rx 27
def gyroz_u32 (rx : IMU_Receive_Frame) : Nat := le32 rx 31
def crc2 (rx : IMU_Receive_Frame) : Nat := le16 rx 35
def FrameEnd2 (rx : IMU_Receive_Frame) : Nat := rx.getD 37 0

def FrameHeader3 (rx : IMU_Receive_Frame) : Nat := rx.getD 38 0
def flag3 (rx : IMU_Receive_Frame) : Nat := rx.getD 39 0
def slave_id3 (rx : IMU_Receive_Frame) : Nat := rx.getD 40 0
def reg_euler (rx : IMU_Receive_Frame) : Nat := rx.getD 41 0
def roll_u32 (rx : IMU_Receive_Frame) : Nat := le32 rx 42
def pitch_u32 (rx : IMU_Receive_Frame) : Nat := le32 rx 46
def yaw_u32 (rx : IMU_Receive_Frame) : Nat := le32 rx 50
def crc3 (rx : IMU_Receive_Frame) : Nat := le16 rx 54
def FrameEnd3 (rx : IMU_Receive_Frame) : Nat := rx.getD 56 0

/-- The 16 bytes starting at `&receive_data.FrameHeader1`. -/
def span1 (rx : IMU_Receive_Frame) : List Nat := rx.take 16
/-- The 16 bytes starting at `&receive_data.FrameHeader2`. -/
def span2 (rx : IMU_Receive_Frame) : List Nat := (rx.drop 19).take 16
/-- The 16 bytes starting at `&receive_data.FrameHeader3`. -/
def span3 (rx : IMU_Receive_Frame) : List Nat := (rx.drop 38).take 16

end IMU_Receive_Frame

/-- The struct `IMU_Data`; every `float` field is held as its binary32 bit pattern. -/
structure IMU_Data where
  accx : Nat
  accy : Nat
  accz : Nat
  gyrox : Nat
  gyroy : Nat
  gyroz : Nat
  roll : Nat
  pitch : Nat
  yaw : Nat
  deriving DecidableEq, Repr

/-- Result of the switch on the baud rate: the termios speed constant selected. -/
inductive Speed
  | B115200
  | B230400
  | B460800
  | B921600
  deriving DecidableEq, Repr

/-- Messages the driver prints on `std::cerr` / `std::cout`. -/
inductive Diag
  | open_failed
  | tcgetattr_failed
  | unsupported_baud (baud : Int)
  | tcsetattr_failed
  | port_opened
  | port_not_open_in_thread
  | header_not_found
  deriving DecidableEq, Repr

/-- Externally visible actions of the driver, in the order the code performs them. -/
inductive Event
  | sys_open (path : String) (fd : Int)
  | sys_tcgetattr (fd : Int)
  | sys_tcsetattr (fd : Int) (speed : Speed)
  | sys_read (fd : Int) (len : Int)
  | sys_write (fd : Int) (buf : List Nat)
  | sys_close (fd : Int)
  | sleep_ms (ms : Nat)
  | thread_spawn
  | thread_join
  | print (d : Diag)
  deriving DecidableEq, Repr

/-- The data members of the class `DmImu`; `rec_thread` holds `rec_thread.joinable()`. -/
structure DmImu where
  imu_seial_baud : Int
  imu_serial_port : String
  serial_fd : Int
  rec_thread : Bool
  stop_thread_ : Bool
  receive_data : IMU_Receive_Frame
  data : IMU_Data
  deriving DecidableEq, Repr

/-- The process: the driver object, the local `error_num` of the acquisition thread, and the
    trace of actions performed so far. -/
structure Proc where
  drv : DmImu
  error_num : Int
  trace : List Event
  deriving DecidableEq, Repr

/-- What one call `read(serial_fd, &receive_data, sizeof(receive_data))` does: the value it
    returns and the bytes it stored at the start of the buffer. -/
structure ReadResult where
  len : Int
  bytes : List Nat
  deriving DecidableEq, Repr

/-- Largest value of an `int` (32 bits). -/
def INT_MAX : Int := 2147483647

/-- Smallest value of an `int` (32 bits). -/
def INT_MIN : Int := -2147483648

/-- The value a 32-bit `int` holds after a computation whose exact result is `x`: `x` reduced
    modulo 2^32 into the range from `INT_MIN` to `INT_MAX`. -/
def wrap_int32 (x : Int) : Int := (x + 2147483648) % 4294967296 - 2147483648

/-- The receive buffer after a read stored `bytes` at its start. -/
def read_into (bytes : List Nat) (rx : IMU_Receive_Frame) : IMU_Receive_Frame :=
  (bytes ++ rx.drop bytes.length).take frame_size

/-! ## The acquisition loop -/

/-- `DmImu::getData`: a copy of the stored sample. -/
def DmImu.getData (p : Proc) : IMU_Data := p.drv.data

/-- One execution of the body of `while (!stop_thread_)` in `DmImu::get_imu_data_thread`;
    `r` is what the `read` of this iteration does (unused when the port is not open). -/
def DmImu.loop_body (Get_CRC16 : List Nat → Nat) (r : ReadResult) (p : Proc) : Proc :=
  if p.drv.serial_fd < 0 then
    { p with trace := p.trace ++ [Event.print Diag.port_not_open_in_thread, Event.sleep_ms 10] }
  else
    let rx := read_into r.bytes p.drv.receive_data
    let tr := p.trace ++ [Event.sys_read p.drv.serial_fd r.len]
    if r.len ≠ 57 then
      { drv := { p.drv with receive_data := rx }, error_num := wrap_int32 (p.error_num + 1),
        trace := tr }
    else if rx.FrameHeader1 = 0x55 ∧ rx.flag1 = 0xAA ∧ rx.slave_id1 = 0x01 ∧ rx.reg_acc = 0x01 then
      let d0 := p.drv.data
      let d1 := if Get_CRC16 rx.span1 = rx.crc1 then
          { d0 with accx := rx.accx_u32, accy := rx.accy_u32, accz := rx.accz_u32 } else d0
      let d2 := if Get_CRC16 rx.span2 = rx.crc2 then
          { d1 with gyrox := rx.gyrox_u32, gyroy := rx.gyroy_u32, gyroz := rx.gyroz_u32 } else d1
      let d3 := if Get_CRC16 rx.span3 = rx.crc3 then
          { d2 with roll := rx.roll_u32, pitch := rx.pitch_u32, yaw := rx.yaw_u32 } else d2
      { drv := { p.drv with receive_data := rx, data := d3 }, error_num := p.error_num, trace := tr }
    else
      if wrap_int32 (p.error_num + 1) > 1200 then
        { drv := { p.drv with receive_data := rx }, error_num := 0,
          trace := tr ++ [Event.print Diag.header_not_found] }
      else
        { drv := { p.drv with receive_data := rx }, error_num := wrap_int32 (p.error_num + 1),
          trace := tr }

/-- The loop of `DmImu::get_imu_data_thread` from a given loop state, over the results of the
    successive reads: it ends when `stop_thread_` is seen set. -/
def DmImu.run_loop (Get_CRC16 : List Nat → Nat) : List ReadResult → Proc → Proc
  | [], p => p
  | r :: rs, p =>
    if p.drv.stop_thread_ then p
    else DmImu.run_loop Get_CRC16 rs (DmImu.loop_body Get_CRC16 r p)

/-- `DmImu::get_imu_data_thread`: `int error_num = 0;` followed by the loop. -/
def DmImu.get_imu_data_thread (Get_CRC16 : List Nat → Nat) (rs : List ReadResult) (p : Proc) :
    Proc :=
  DmImu.run_loop Get_CRC16 rs { p with error_num := 0 }

/-! ## The stores of one decoded frame, one at a time

`get_imu_data_thread` assigns the fields of `data` one after the other, outside of
`data_mutex`; the `lock_guard` block that follows the assignments is empty. A concurrent
`getData()` can therefore copy `data` between any two of these stores. -/

/-- The nine fields of `IMU_Data`. -/
inductive Field
  | accx | accy | accz | gyrox | gyroy | gyroz | roll | pitch | yaw
  deriving DecidableEq, Repr

/-- The assignment `data.f = v`. -/
def IMU_Data.store (d : IMU_Data) (f : Field) (v : Nat) : IMU_Data :=
  match f with
  | .accx => { d with accx := v }
  | .accy => { d with accy := v }
  | .accz => { d with accz := v }
  | .gyrox => { d with gyrox := v }
  | .gyroy => { d with gyroy := v }
  | .gyroz => { d with gyroz := v }
  | .roll => { d with roll := v }
  | .pitch => { d with pitch := v }
  | .yaw => { d with yaw := v }

/-- The assignments to `data` made for a frame that passed the header test, in program
    order (lines 281-298 of `imu_driver.cpp`). -/
def frame_stores (Get_CRC16 : List Nat → Nat) (rx : IMU_Receive_Frame) : List (Field × Nat) :=
  (if Get_CRC16 rx.span1 = rx.crc1 then
      [(Field.accx, rx.accx_u32), (Field.accy, rx.accy_u32), (Field.accz, rx.accz_u32)]
    else []) ++
  (if Get_CRC16 rx.span2 = rx.crc2 then
      [(Field.gyrox, rx.gyrox_u32), (Field.gyroy, rx.gyroy_u32), (Field.gyroz, rx.gyroz_u32)]
    else []) ++
  (if Get_CRC16 rx.span3 = rx.crc3 then
      [(Field.roll, rx.roll_u32), (Field.pitch, rx.pitch_u32), (Field.yaw, rx.yaw_u32)]
    else [])

/-- Performing a list of assignments on `data`. -/
def apply_stores (d : IMU_Data) (ws : List (Field × Nat)) : IMU_Data :=
  ws.foldl (fun acc w => acc.store w.1 w.2) d

/-- What a `getData()` returns when it runs after the acquisition thread has performed the
    first `k` assignments of the frame `rx` and before it performs the next one. -/
def getData_after (Get_CRC16 : List Nat → Nat) (rx : IMU_Receive_Frame) (d : IMU_Data)
    (k : Nat) : IMU_Data :=
  apply_stores d ((frame_stores Get_CRC16 rx).take k)

/-! ## Opening the port, configuration commands, construction -/

/-- How the operating system answers the calls of `init_imu_serial`. -/
structure Env where
  open_fd : Int
  tcgetattr_ok : Bool
  tcsetattr_ok : Bool
  deriving DecidableEq, Repr

/-- Outcome of a member function: it returns a value in a process state, or the process
    ends in `std::exit(EXIT_FAILURE)` in the state reached. -/
inductive Outcome (α : Type)
  | ret (a : α) (p : Proc)
  | exit (p : Proc)
  deriving DecidableEq, Repr

/-- The process state in which the call returned or exited. -/
def Outcome.proc {α : Type} : Outcome α → Proc
  | .ret _ p => p
  | .exit p => p

/-- Whether the call returned to its caller. -/
def Outcome.returned {α : Type} : Outcome α → Bool
  | .ret _ _ => true
  | .exit _ => false

/-- The `switch (imu_seial_baud)` of `init_imu_serial`; `none` is the `default:` branch. -/
def baud_to_speed (baud : Int) : Option Speed :=
  if baud = 115200 then some Speed.B115200
  else if baud = 230400 then some Speed.B230400
  else if baud = 460800 then some Speed.B460800
  else if baud = 921600 then some Speed.B921600
  else none

/-- `DmImu::init_imu_serial`. The flag edits between `cfsetispeed` and `tcsetattr` (8N1, no
    flow control, VMIN 0, VTIME 5) touch only the local `tty` and are not recorded. -/
def DmImu.init_imu_serial (env : Env) (p : Proc) : Outcome Unit :=
  let fd := env.open_fd
  let d := { p.drv with serial_fd := fd }
  let t1 := p.trace ++ [Event.sys_open p.drv.imu_serial_port fd]
  if fd < 0 then
    .exit { p with drv := d, trace := t1 ++ [Event.print Diag.open_failed] }
  else
    let t2 := t1 ++ [Event.sys_tcgetattr fd]
    if env.tcgetattr_ok = false then
      .exit { p with drv := d, trace := t2 ++ [Event.print Diag.tcgetattr_failed] }
    else
      match baud_to_speed p.drv.imu_seial_baud with
      | none =>
        .exit { p with drv := d,
                       trace := t2 ++ [Event.print (Diag.unsupported_baud p.drv.imu_seial_baud)] }
      | some speed =>
        let t3 := t2 ++ [Event.sys_tcsetattr fd speed]
        if env.tcsetattr_ok = false then
          .exit { p with drv := d, trace := t3 ++ [Event.print Diag.tcsetattr_failed] }
        else
          .ret () { p with drv := d, trace := t3 ++ [Event.print Diag.port_opened] }

/-- The loop `for (i = 0; i < n; ++i) { write(serial_fd, txbuf, sizeof(txbuf)); sleep 10ms }`
    shared by all command functions (`n` is 5 there). -/
def write_loop (txbuf : List Nat) : Nat → Proc → Proc
  | 0, p => p
  | n + 1, p =>
    write_loop txbuf n
      { p with trace := p.trace ++ [Event.sys_write p.drv.serial_fd txbuf, Event.sleep_ms 10] }

def DmImu.enter_setting_mode (p : Proc) : Proc := write_loop [0xAA, 0x06, 0x01, 0x0D] 5 p
def DmImu.turn_on_accel (p : Proc) : Proc := write_loop [0xAA, 0x01, 0x14, 0x0D] 5 p
def DmImu.turn_on_gyro (p : Proc) : Proc := write_loop [0xAA, 0x01, 0x15, 0x0D] 5 p
def DmImu.turn_on_euler (p : Proc) : Proc := write_loop [0xAA, 0x01, 0x16, 0x0D] 5 p
def DmImu.turn_off_quat (p : Proc) : Proc := write_loop [0xAA, 0x01, 0x07, 0x0D] 5 p
def DmImu.set_output_1000HZ (p : Proc) : Proc := write_loop [0xAA, 0x02, 0x01, 0x00, 0x0D] 5 p
def DmImu.save_imu_para (p : Proc) : Proc := write_loop [0xAA, 0x03, 0x01, 0x0D] 5 p
def DmImu.exit_setting_mode (p : Proc) : Proc := write_loop [0xAA, 0x06, 0x00, 0x0D] 5 p
def DmImu.restart_imu (p : Proc) : Proc := write_loop [0xAA, 0x00, 0x00, 0x0D] 5 p

/-- The statement `std::this_thread::sleep_for(std::chrono::milliseconds(ms))`. -/
def sleep_for (ms : Nat) (p : Proc) : Proc :=
  { p with trace := p.trace ++ [Event.sleep_ms ms] }

/-- The object after the member initialisers of the constructor and the default member
    initialisers of the class, in a fresh process. -/
def DmImu.initial (port : String) (baud : Int) : Proc :=
  { drv := { imu_seial_baud := baud, imu_serial_port := port, serial_fd := -1,
             rec_thread := false, stop_thread_ := false,
             receive_data := List.replicate frame_size 0,
             data := ⟨0, 0, 0, 0, 0, 0, 0, 0, 0⟩ },
    error_num := 0, trace := [] }

/-- The constructor `DmImu::DmImu(port, baud)`. -/
def DmImu.construct (env : Env) (port : String) (baud : Int) : Outcome Unit :=
  match DmImu.init_imu_serial env (DmImu.initial port baud) with
  | .exit q => .exit q
  | .ret _ p0 =>
    let p1 := sleep_for 10 (DmImu.enter_setting_mode p0)
    let p2 := sleep_for 10 (DmImu.turn_on_accel p1)
    let p3 := sleep_for 10 (DmImu.turn_on_gyro p2)
    let p4 := sleep_for 10 (DmImu.turn_on_euler p3)
    let p5 := sleep_for 10 (DmImu.turn_off_quat p4)
    let p6 := sleep_for 10 (DmImu.set_output_1000HZ p5)
    let p7 := sleep_for 10 (DmImu.save_imu_para p6)
    let p8 := sleep_for 100 (DmImu.exit_setting_mode p7)
    .ret () p8

/-! ## start, stop, destructor -/

/-- `DmImu::start`. The new thread begins `get_imu_data_thread` with `error_num = 0`. -/
def DmImu.start (env : Env) (p : Proc) : Outcome Bool :=
  if p.drv.rec_thread then .ret true p
  else
    let opened : Outcome Unit :=
      if p.drv.serial_fd < 0 then DmImu.init_imu_serial env p else .ret () p
    match opened with
    | .exit q => .exit q
    | .ret _ q =>
      .ret true { drv := { q.drv with stop_thread_ := false, rec_thread := true },
                  error_num := 0, trace := q.trace ++ [Event.thread_spawn] }

/-- `DmImu::stop`. `rec_thread.join()` returns once the acquisition thread has left its loop:
    the loop tests `stop_thread_` only between iterations, so an iteration that is under way
    when the flag is set (`inflight` is what its `read` does) is completed first. -/
def DmImu.stop (Get_CRC16 : List Nat → Nat) (inflight : Option ReadResult) (p : Proc) : Proc :=
  let p1 : Proc := { p with drv := { p.drv with stop_thread_ := true } }
  let p2 : Proc :=
    if p1.drv.rec_thread then
      let q := match inflight with
        | none => p1
        | some r => DmImu.loop_body Get_CRC16 r p1
      { q with drv := { q.drv with rec_thread := false }, trace := q.trace ++ [Event.thread_join] }
    else p1
  if 0 ≤ p2.drv.serial_fd then
    { p2 with drv := { p2.drv with serial_fd := -1 },
              trace := p2.trace ++ [Event.sys_close p2.drv.serial_fd] }
  else p2

/-- The destructor `DmImu::~DmImu`. -/
def DmImu.destruct (Get_CRC16 : List Nat → Nat) (inflight : Option ReadResult) (p : Proc) :
    Proc :=
  let p1 := DmImu.stop Get_CRC16 inflight p
  if 0 ≤ p1.drv.serial_fd then
    { p1 with drv := { p1.drv with serial_fd := -1 },
              trace := p1.trace ++ [Event.sys_close p1.drv.serial_fd] }
  else p1

/-! ## Observations on traces -/

/-- The buffers passed to `write`, in order. -/
def writes : List Event → List (List Nat)
  | [] => []
  | Event.sys_write _ buf :: t => buf :: writes t
  | _ :: t => writes t

/-- The calls of `write`, in order: the descriptor and the buffer passed. -/
def written : List Event → List (Int × List Nat)
  | [] => []
  | Event.sys_write fd buf :: t => (fd, buf) :: written t
  | _ :: t => written t

/-- Number of `close` calls in a trace. -/
def closes (t : List Event) : Nat :=
  (t.filter (fun e => match e with | Event.sys_close _ => true | _ => false)).length

/-- Number of `open` calls in a trace. -/
def opens (t : List Event) : Nat :=
  (t.filter (fun e => match e with | Event.sys_open _ _ => true | _ => false)).length

/-- Number of `tcsetattr` calls in a trace. -/
def tcsetattrs (t : List Event) : Nat :=
  (t.filter (fun e => match e with | Event.sys_tcsetattr _ _ => true | _ => false)).length

/-- Number of threads created in a trace. -/
def spawns (t : List Event) : Nat := t.count Event.thread_spawn

/-! ## Vocabulary of the frame format

Subframes, payloads and checksums as the protocol describes them, independently of the
field offsets used by the code. -/

/-- Subframe `k` (0, 1, 2) of a frame: the 19 bytes from byte offset `19 * k`. -/
def subframe (buf : List Nat) (k : Fin 3) : List Nat :=
  (buf.drop (19 * k.val)).take 19

/-- The three little-endian 32-bit words at bytes 4-15 of a subframe. -/
def payload (sf : List Nat) : Nat × Nat × Nat :=
  (le32 sf 4, le32 sf 8, le32 sf 12)

/-- The embedded checksum (bytes 16-17, little-endian) equals `Get_CRC16` of the first 16
    bytes of the subframe. -/
def checksum_ok (Get_CRC16 : List Nat → Nat) (sf : List Nat) : Prop :=
  Get_CRC16 (sf.take 16) = le16 sf 16

instance (Get_CRC16 : List Nat → Nat) (sf : List Nat) : Decidable (checksum_ok Get_CRC16 sf) :=
  inferInstanceAs (Decidable (Get_CRC16 (sf.take 16) = le16 sf 16))

/-- The leading marker, flag, source id and register bytes are 0x55, 0xAA, 0x01, 0x01. -/
def leading_ok (buf : List Nat) : Prop :=
  buf.getD 0 0 = 0x55 ∧ buf.getD 1 0 = 0xAA ∧ buf.getD 2 0 = 0x01 ∧ buf.getD 3 0 = 0x01

instance (buf : List Nat) : Decidable (leading_ok buf) :=
  inferInstanceAs (Decidable (buf.getD 0 0 = 0x55 ∧ buf.getD 1 0 = 0xAA ∧ buf.getD 2 0 = 0x01 ∧
    buf.getD 3 0 = 0x01))

/-- Triple `k` of a sample: acceleration, angular velocity, roll/pitch/yaw. -/
def IMU_Data.triple (d : IMU_Data) (k : Fin 3) : Nat × Nat × Nat :=
  match k with
  | 0 => (d.accx, d.accy, d.accz)
  | 1 => (d.gyrox, d.gyroy, d.gyroz)
  | 2 => (d.roll, d.pitch, d.yaw)

/-- Number of threads joined in a trace. -/
def joins (t : List Event) : Nat := t.count Event.thread_join

/-- Threads created and not yet joined. -/
def running_tasks (t : List Event) : Int := (spawns t : Int) - (joins t : Int)

/-- The eight command opcodes of the configuration sequence, in order: enter setting mode,
    enable accelerometer, enable gyroscope, enable orientation, disable quaternion, set rate
    1000 Hz, save parameters, exit setting mode. -/
def config_opcodes : List (List Nat) :=
  [[0x06, 0x01], [0x01, 0x14], [0x01, 0x15], [0x01, 0x16], [0x01, 0x07], [0x02, 0x01, 0x00],
   [0x03, 0x01], [0x06, 0x00]]

/-- A command buffer: 0xAA, the opcode bytes, 0x0D. -/
def framed (opcode : List Nat) : List Nat := 0xAA :: (opcode ++ [0x0D])

/-- The baud rates accepted by the switch of `init_imu_serial`. -/
def supported_bauds : List Int := [115200, 230400, 460800, 921600]

/-! ## Concrete inputs used in the examples -/

/-- A stand-in checksum for the examples: the byte sum modulo 2^16. -/
def sum16 (bs : List Nat) : Nat := bs.sum % 65536

/-- A frame carrying acceleration (1.0, 2.0, 3.0), angular velocity (0, 0, 0) and orientation
    (0, 0, 0), each subframe with its `sum16` checksum. -/
def frame_123 : List Nat :=
  [0x55, 0xAA, 0x01, 0x01, 0x00, 0x00, 0x80, 0x3F, 0x00, 0x00, 0x00, 0x40,
   0x00, 0x00, 0x40, 0x40, 0x80, 0x02, 0x0A,
   0x55, 0xAA, 0x01, 0x02, 0x00, 0x00, 0x00, 0x00, 0x00, 0x00, 0x00, 0x00,
   0x00, 0x00, 0x00, 0x00, 0x02, 0x01, 0x0A,
   0x55, 0xAA, 0x01, 0x03, 0x00, 0x00, 0x00, 0x00, 0x00, 0x00, 0x00, 0x00,
   0x00, 0x00, 0x00, 0x00, 0x03, 0x01, 0x0A]

/-- The frame `frame_123` with the low checksum byte of the acceleration subframe flipped. -/
def frame_123_bad_acc_crc : List Nat := frame_123.set 16 0x7F

/-- The frame `frame_123` with a wrong start marker; its three checksums are recomputed and
    match. -/
def frame_123_bad_marker : List Nat := (frame_123.set 0 0x54).set 16 0x7F

/-- A driver whose port is open on descriptor 3 and whose acquisition thread runs, holding
    the sample (7, 8, 9, 10, 11, 12, 13, 14, 15) (as bit patterns). -/
def running_proc : Proc :=
  { drv := { imu_seial_baud := 921600, imu_serial_port := "/dev/ttyACM1", serial_fd := 3,
             rec_thread := true, stop_thread_ := false,
             receive_data := List.replicate frame_size 0,
             data := ⟨7, 8, 9, 10, 11, 12, 13, 14, 15⟩ },
    error_num := 0, trace := [] }

/-- A read that times out: it returns 0 and stores nothing. -/
def read_timeout : ReadResult := ⟨0, []⟩

/-- An operating system on which the device opens on descriptor 3 and accepts the settings. -/
def env_ok : Env := ⟨3, true, true⟩

/-- An operating system on which the device path cannot be opened. -/
def env_unplugged : Env := ⟨-1, true, true⟩

/-- The driver constructed with the default arguments and then stopped without having been
    started. -/
def stopped_proc : Proc :=
  DmImu.stop sum16 none (DmImu.construct env_ok "/dev/ttyACM1" 921600).proc

/-! ## Auxiliary lemmas -/

theorem read_into_full (bytes : List Nat) (rx : IMU_Receive_Frame)
    (h : bytes.length = 57) : read_into bytes rx = bytes := by
  unfold read_into frame_size
  rw [List.take_append_of_le_length (by omega)]
  exact List.take_of_length_le (by omega)

theorem getD_drop_take (l : List Nat) (a n i : Nat) (h : i < n) :
    ((l.drop a).take n).getD i 0 = l.getD (a + i) 0 := by
  simp [List.getD_eq_getElem?_getD, List.getElem?_take, h, List.getElem?_drop]

theorem le32_subframe (buf : List Nat) (k : Fin 3) (off : Nat) (h : off + 3 < 19) :
    le32 (subframe buf k) off = le32 buf (19 * k.val + off) := by
  unfold le32 subframe
  rw [getD_drop_take _ _ _ _ (by omega), getD_drop_take _ _ _ _ (by omega),
    getD_drop_take _ _ _ _ (by omega), getD_drop_take _ _ _ _ (by omega)]
  simp [Nat.add_assoc]

theorem le16_subframe (buf : List Nat) (k : Fin 3) (off : Nat) (h : off + 1 < 19) :
    le16 (subframe buf k) off = le16 buf (19 * k.val + off) := by
  unfold le16 subframe
  rw [getD_drop_take _ _ _ _ (by omega), getD_drop_take _ _ _ _ (by omega)]
  simp [Nat.add_assoc]

theorem take16_subframe (buf : List Nat) (k : Fin 3) :
    (subframe buf k).take 16 = (buf.drop (19 * k.val)).take 16 := by
  unfold subframe
  rw [List.take_take]
  rfl

theorem checksum_ok_0 (crc : List Nat → Nat) (buf : List Nat) :
    checksum_ok crc (subframe buf 0) ↔ crc (IMU_Receive_Frame.span1 buf) = IMU_Receive_Frame.crc1 buf := by
  unfold checksum_ok
  rw [take16_subframe, le16_subframe _ _ _ (by omega)]
  simp [IMU_Receive_Frame.span1, IMU_Receive_Frame.crc1]

theorem checksum_ok_1 (crc : List Nat → Nat) (buf : List Nat) :
    checksum_ok crc (subframe buf 1) ↔ crc (IMU_Receive_Frame.span2 buf) = IMU_Receive_Frame.crc2 buf := by
  unfold checksum_ok
  rw [take16_subframe, le16_subframe _ _ _ (by omega)]
  simp [IMU_Receive_Frame.span2, IMU_Receive_Frame.crc2]

theorem checksum_ok_2 (crc : List Nat → Nat) (buf : List Nat) :
    checksum_ok crc (subframe buf 2) ↔ crc (IMU_Receive_Frame.span3 buf) = IMU_Receive_Frame.crc3 buf := by
  unfold checksum_ok
  rw [take16_subframe, le16_subframe _ _ _ (by omega)]
  simp [IMU_Receive_Frame.span3, IMU_Receive_Frame.crc3]

theorem payload_0 (buf : List Nat) :
    payload (subframe buf 0) =
      (IMU_Receive_Frame.accx_u32 buf, IMU_Receive_Frame.accy_u32 buf, IMU_Receive_Frame.accz_u32 buf) := by
  unfold payload
  rw [le32_subframe _ _ _ (by omega), le32_subframe _ _ _ (by omega), le32_subframe _ _ _ (by omega)]
  simp [IMU_Receive_Frame.accx_u32, IMU_Receive_Frame.accy_u32, IMU_Receive_Frame.accz_u32]

theorem payload_1 (buf : List Nat) :
    payload (subframe buf 1) =
      (IMU_Receive_Frame.gyrox_u32 buf, IMU_Receive_Frame.gyroy_u32 buf, IMU_Receive_Frame.gyroz_u32 buf) := by
  unfold payload
  rw [le32_subframe _ _ _ (by omega), le32_subframe _ _ _ (by omega), le32_subframe _ _ _ (by omega)]
  simp [IMU_Receive_Frame.gyrox_u32, IMU_Receive_Frame.gyroy_u32, IMU_Receive_Frame.gyroz_u32]

theorem payload_2 (buf : List Nat) :
    payload (subframe buf 2) =
      (IMU_Receive_Frame.roll_u32 buf, IMU_Receive_Frame.pitch_u32 buf, IMU_Receive_Frame.yaw_u32 buf) := by
  unfold payload
  rw [le32_subframe _ _ _ (by omega), le32_subframe _ _ _ (by omega), le32_subframe _ _ _ (by omega)]
  simp [IMU_Receive_Frame.roll_u32, IMU_Receive_Frame.pitch_u32, IMU_Receive_Frame.yaw_u32]

/-- The sample after an iteration that read a full frame passing the header test. -/
theorem loop_body_data_of_leading_ok (crc : List Nat → Nat) (r : ReadResult) (p : Proc)
    (hfd : 0 ≤ p.drv.serial_fd) (hlen : r.len = 57) (hbytes : r.bytes.length = 57)
    (hlead : leading_ok r.bytes) :
    (DmImu.loop_body crc r p).drv.data =
      { accx := if checksum_ok crc (subframe r.bytes 0) then (payload (subframe r.bytes 0)).1
                else p.drv.data.accx,
        accy := if checksum_ok crc (subframe r.bytes 0) then (payload (subframe r.bytes 0)).2.1
                else p.drv.data.accy,
        accz := if checksum_ok crc (subframe r.bytes 0) then (payload (subframe r.bytes 0)).2.2
                else p.drv.data.accz,
        gyrox := if checksum_ok crc (subframe r.bytes 1) then (payload (subframe r.bytes 1)).1
                else p.drv.data.gyrox,
        gyroy := if checksum_ok crc (subframe r.bytes 1) then (payload (subframe r.bytes 1)).2.1
                else p.drv.data.gyroy,
        gyroz := if checksum_ok crc (subframe r.bytes 1) then (payload (subframe r.bytes 1)).2.2
                else p.drv.data.gyroz,
        roll := if checksum_ok crc (subframe r.bytes 2) then (payload (subframe r.bytes 2)).1
                else p.drv.data.roll,
        pitch := if checksum_ok crc (subframe r.bytes 2) then (payload (subframe r.bytes 2)).2.1
                else p.drv.data.pitch,
        yaw := if checksum_ok crc (subframe r.bytes 2) then (payload (subframe r.bytes 2)).2.2
                else p.drv.data.yaw } := by
  have hnot : ¬ p.drv.serial_fd < 0 := by omega
  have hl : r.bytes.getD 0 0 = 0x55 ∧ r.bytes.getD 1 0 = 0xAA ∧ r.bytes.getD 2 0 = 0x01 ∧
      r.bytes.getD 3 0 = 0x01 := hlead
  simp only [checksum_ok_0, checksum_ok_1, checksum_ok_2, payload_0, payload_1, payload_2]
  unfold DmImu.loop_body
  simp only [hnot, if_false, read_into_full _ _ hbytes, hlen, ne_eq, not_true_eq_false,
    IMU_Receive_Frame.FrameHeader1, IMU_Receive_Frame.flag1, IMU_Receive_Frame.slave_id1,
    IMU_Receive_Frame.reg_acc, hl, and_self, if_true]
  by_cases h1 : crc (IMU_Receive_Frame.span1 r.bytes) = IMU_Receive_Frame.crc1 r.bytes <;>
  by_cases h2 : crc (IMU_Receive_Frame.span2 r.bytes) = IMU_Receive_Frame.crc2 r.bytes <;>
  by_cases h3 : crc (IMU_Receive_Frame.span3 r.bytes) = IMU_Receive_Frame.crc3 r.bytes <;>
  simp [h1, h2, h3]

theorem wrap_int32_of_range (x : Int) (hlo : -2147483648 ≤ x) (hhi : x ≤ 2147483647) :
    wrap_int32 x = x := by
  unfold wrap_int32
  omega

/-- After `n` reads that time out, from a loop state with the port open and the stop flag
    clear, the counter has grown by `n`, as long as it stays within the `int` range. -/
theorem run_loop_timeouts (crc : List Nat → Nat) (n : Nat) (p : Proc)
    (hfd : 0 ≤ p.drv.serial_fd) (hstop : p.drv.stop_thread_ = false)
    (hlo : -2147483648 ≤ p.error_num) (hhi : p.error_num + n ≤ 2147483647) :
    (DmImu.run_loop crc (List.replicate n read_timeout) p).error_num = p.error_num + n := by
  induction n generalizing p with
  | zero => simp [DmImu.run_loop]
  | succ n ih =>
    have hnot : ¬ p.drv.serial_fd < 0 := by omega
    have hw : wrap_int32 (p.error_num + 1) = p.error_num + 1 :=
      wrap_int32_of_range _ (by omega) (by push_cast at hhi; omega)
    rw [List.replicate_succ, DmImu.run_loop]
    simp only [hstop, Bool.false_eq_true, if_false]
    rw [ih]
    · simp [DmImu.loop_body, hnot, read_timeout, hw]
      omega
    · simpa [DmImu.loop_body, hnot, read_timeout] using hfd
    · simpa [DmImu.loop_body, hnot, read_timeout] using hstop
    · simp [DmImu.loop_body, hnot, read_timeout, hw]
      omega
    · simp [DmImu.loop_body, hnot, read_timeout, hw]
      push_cast at hhi
      omega

/-! ## Theorems on the acquisition loop -/

/-- C1: for a 57-byte buffer whose first four bytes are 0x55, 0xAA, 0x01, 0x01 and any previous
    sample, one loop iteration sets every triple whose subframe carries a matching checksum to
    the three little-endian words at bytes 4-15 of that subframe; when all three checksums
    match, `getData()` returns exactly the nine encoded values. `Get_CRC16` is arbitrary. -/
theorem valid_subframes_are_decoded (Get_CRC16 : List Nat → Nat) (buf : List Nat) (p : Proc)
    (hfd : 0 ≤ p.drv.serial_fd) (hbuf : buf.length = 57) (hlead : leading_ok buf) :
    (∀ k : Fin 3, checksum_ok Get_CRC16 (subframe buf k) →
        (DmImu.loop_body Get_CRC16 ⟨57, buf⟩ p).drv.data.triple k = payload (subframe buf k)) ∧
    ((∀ k : Fin 3, checksum_ok Get_CRC16 (subframe buf k)) →
        DmImu.getData (DmImu.loop_body Get_CRC16 ⟨57, buf⟩ p) =
          { accx := (payload (subframe buf 0)).1, accy := (payload (subframe buf 0)).2.1,
            accz := (payload (subframe buf 0)).2.2,
            gyrox := (payload (subframe buf 1)).1, gyroy := (payload (subframe buf 1)).2.1,
            gyroz := (payload (subframe buf 1)).2.2,
            roll := (payload (subframe buf 2)).1, pitch := (payload (subframe buf 2)).2.1,
            yaw := (payload (subframe buf 2)).2.2 }) := by
  have hd := loop_body_data_of_leading_ok Get_CRC16 ⟨57, buf⟩ p hfd rfl hbuf hlead
  constructor
  · intro k hk
    rw [hd]
    fin_cases k <;> simp_all [IMU_Data.triple]
  · intro hall
    unfold DmImu.getData
    rw [hd]
    simp [hall 0, hall 1, hall 2]

/-- C1, on the frame encoding acceleration (1.0, 2.0, 3.0) and zero angular velocity and
    orientation: the sample read back is 0x3F800000, 0x40000000, 0x40400000, 0, ..., 0. -/
theorem valid_subframes_are_decoded_witness :
    (0 ≤ running_proc.drv.serial_fd ∧ frame_123.length = 57 ∧ leading_ok frame_123 ∧
      ∀ k : Fin 3, checksum_ok sum16 (subframe frame_123 k)) ∧
    DmImu.getData (DmImu.loop_body sum16 ⟨57, frame_123⟩ running_proc) =
      ⟨0x3F800000, 0x40000000, 0x40400000, 0, 0, 0, 0, 0, 0⟩ :=
  ⟨by decide,
   (valid_subframes_are_decoded sum16 frame_123 running_proc (by decide) (by decide)
      (by decide)).2 (by decide)⟩

/-- C2: for a 57-byte buffer passing the leading check and any previous sample, a subframe
    whose embedded checksum differs from `Get_CRC16` of its first 16 bytes leaves its triple
    at the previous value, and each of the other two triples is still set to its encoded
    payload whenever its own checksum matches. -/
theorem corrupted_subframe_keeps_previous_triple (Get_CRC16 : List Nat → Nat) (buf : List Nat)
    (p : Proc) (hfd : 0 ≤ p.drv.serial_fd) (hbuf : buf.length = 57) (hlead : leading_ok buf)
    (k : Fin 3) (hbad : ¬ checksum_ok Get_CRC16 (subframe buf k)) :
    (DmImu.loop_body Get_CRC16 ⟨57, buf⟩ p).drv.data.triple k = p.drv.data.triple k ∧
    ∀ j : Fin 3, j ≠ k → checksum_ok Get_CRC16 (subframe buf j) →
      (DmImu.loop_body Get_CRC16 ⟨57, buf⟩ p).drv.data.triple j = payload (subframe buf j) := by
  have hd := loop_body_data_of_leading_ok Get_CRC16 ⟨57, buf⟩ p hfd rfl hbuf hlead
  constructor
  · rw [hd]
    fin_cases k <;> simp_all [IMU_Data.triple]
  · intro j _ hj
    rw [hd]
    fin_cases j <;> simp_all [IMU_Data.triple]

/-- C2, on the example frame with the acceleration checksum corrupted: acceleration keeps
    the previous (7, 8, 9), angular velocity and orientation take the encoded zeros. -/
theorem corrupted_subframe_keeps_previous_triple_witness :
    (0 ≤ running_proc.drv.serial_fd ∧ frame_123_bad_acc_crc.length = 57 ∧
      leading_ok frame_123_bad_acc_crc ∧
      ¬ checksum_ok sum16 (subframe frame_123_bad_acc_crc 0)) ∧
    DmImu.getData (DmImu.loop_body sum16 ⟨57, frame_123_bad_acc_crc⟩ running_proc) =
      ⟨7, 8, 9, 0, 0, 0, 0, 0, 0⟩ ∧
    ((DmImu.loop_body sum16 ⟨57, frame_123_bad_acc_crc⟩ running_proc).drv.data.triple 0 =
        running_proc.drv.data.triple 0 ∧
      ∀ j : Fin 3, j ≠ 0 → checksum_ok sum16 (subframe frame_123_bad_acc_crc j) →
        (DmImu.loop_body sum16 ⟨57, frame_123_bad_acc_crc⟩ running_proc).drv.data.triple j =
          payload (subframe frame_123_bad_acc_crc j)) :=
  ⟨by decide, by decide,
   corrupted_subframe_keeps_previous_triple sum16 frame_123_bad_acc_crc running_proc
     (by decide) (by decide) (by decide) 0 (by decide)⟩

/-- C3: for a 57-byte buffer in which one of the first four bytes differs from
    0x55, 0xAA, 0x01, 0x01, one loop iteration leaves all nine sample fields unchanged,
    whatever the three checksums are. -/
theorem leading_check_gates_frame (Get_CRC16 : List Nat → Nat) (buf : List Nat) (p : Proc)
    (hbuf : buf.length = 57) (hlead : ¬ leading_ok buf) :
    (DmImu.loop_body Get_CRC16 ⟨57, buf⟩ p).drv.data = p.drv.data := by
  have hl : ¬ (buf.getD 0 0 = 0x55 ∧ buf.getD 1 0 = 0xAA ∧ buf.getD 2 0 = 0x01 ∧
      buf.getD 3 0 = 0x01) := hlead
  unfold DmImu.loop_body
  by_cases hfd : p.drv.serial_fd < 0
  · simp [hfd]
  · simp only [hfd, if_false, read_into_full _ _ hbuf, ne_eq, not_true_eq_false,
      IMU_Receive_Frame.FrameHeader1, IMU_Receive_Frame.flag1, IMU_Receive_Frame.slave_id1,
      IMU_Receive_Frame.reg_acc, hl]
    split <;> rfl

/-- C3, on a frame whose start marker is 0x54 and whose three checksums all match. -/
theorem leading_check_gates_frame_witness :
    (frame_123_bad_marker.length = 57 ∧ ¬ leading_ok frame_123_bad_marker ∧
      ∀ k : Fin 3, checksum_ok sum16 (subframe frame_123_bad_marker k)) ∧
    (DmImu.loop_body sum16 ⟨57, frame_123_bad_marker⟩ running_proc).drv.data =
      running_proc.drv.data :=
  ⟨by decide,
   leading_check_gates_frame sum16 frame_123_bad_marker running_proc (by decide) (by decide)⟩

/-- C4, as the code has it: a loop iteration whose read returns a length other than 57 (0 on
    timeout and negative values included) leaves all nine sample fields unchanged, whatever
    the counter is, and increases the error counter by exactly one while the counter is below
    the threshold 1200. -/
theorem short_read_counts_one_error (Get_CRC16 : List Nat → Nat) (r : ReadResult) (p : Proc)
    (hfd : 0 ≤ p.drv.serial_fd) (hlen : r.len ≠ 57) :
    (DmImu.loop_body Get_CRC16 r p).drv.data = p.drv.data ∧
    (INT_MIN ≤ p.error_num → p.error_num < 1200 →
      (DmImu.loop_body Get_CRC16 r p).error_num = p.error_num + 1) := by
  have hnot : ¬ p.drv.serial_fd < 0 := by omega
  constructor
  · unfold DmImu.loop_body
    simp [hnot, hlen]
  · intro hlo hhi
    have hw : wrap_int32 (p.error_num + 1) = p.error_num + 1 :=
      wrap_int32_of_range _ (by unfold INT_MIN at hlo; omega) (by omega)
    unfold DmImu.loop_body
    simp [hnot, hlen, hw]

/-- C4, on a read that fails with -1 while the counter is at 0: the counter becomes 1. -/
theorem short_read_counts_one_error_witness :
    (0 ≤ running_proc.drv.serial_fd ∧ (-1 : Int) ≠ 57 ∧ INT_MIN ≤ running_proc.error_num ∧
      running_proc.error_num < 1200) ∧
    (DmImu.loop_body sum16 ⟨-1, []⟩ running_proc).drv.data = running_proc.drv.data ∧
    (DmImu.loop_body sum16 ⟨-1, []⟩ running_proc).error_num = running_proc.error_num + 1 :=
  ⟨by decide,
   (short_read_counts_one_error sum16 ⟨-1, []⟩ running_proc (by decide) (by decide)).1,
   (short_read_counts_one_error sum16 ⟨-1, []⟩ running_proc (by decide) (by decide)).2
     (by decide) (by decide)⟩

/-- C4 as stated fails: with the counter at `INT_MAX` = 2147483647, a read that times out
    leaves the counter at -2147483648, not at 2147483648. -/
theorem short_read_wraps_at_int_max :
    (0 ≤ ({ running_proc with error_num := 2147483647 } : Proc).drv.serial_fd ∧
      read_timeout.len ≠ 57) ∧
    (DmImu.loop_body sum16 read_timeout { running_proc with error_num := 2147483647 }).error_num =
      -2147483648 ∧
    (DmImu.loop_body sum16 read_timeout { running_proc with error_num := 2147483647 }).error_num ≠
      2147483647 + 1 := by
  decide

/-- C5: the claim fails on the code. From a counter of 0, 1201 reads that time out leave the
    counter at 1201, above 1200: the short-read branch increments `error_num` and continues
    without the threshold test. The header-mismatch branch does have the test: from 1200 one
    mismatching frame resets the counter to 0. -/
theorem short_reads_exceed_threshold :
    (∀ Get_CRC16 : List Nat → Nat,
      (DmImu.get_imu_data_thread Get_CRC16 (List.replicate 1201 read_timeout)
        running_proc).error_num = 1201) ∧
    (∀ Get_CRC16 : List Nat → Nat,
      (DmImu.loop_body Get_CRC16 ⟨57, frame_123_bad_marker⟩
        { running_proc with error_num := 1200 }).error_num = 0) := by
  constructor
  · intro crc
    unfold DmImu.get_imu_data_thread
    rw [run_loop_timeouts crc 1201 _ (by decide) rfl (by decide) (by decide)]
    rfl
  · intro crc
    have hl : ¬ leading_ok frame_123_bad_marker := by decide
    have hl2 : ¬ ((frame_123_bad_marker).getD 0 0 = 0x55 ∧ (frame_123_bad_marker).getD 1 0 = 0xAA ∧
      (frame_123_bad_marker).getD 2 0 = 0x01 ∧ (frame_123_bad_marker).getD 3 0 = 0x01) := hl
    have hfd : ¬ running_proc.drv.serial_fd < 0 := by decide
    unfold DmImu.loop_body
    simp only [hfd, if_false, read_into_full _ _ (show frame_123_bad_marker.length = 57 by decide),
      ne_eq, not_true_eq_false, IMU_Receive_Frame.FrameHeader1, IMU_Receive_Frame.flag1,
      IMU_Receive_Frame.slave_id1, IMU_Receive_Frame.reg_acc, hl2]
    have hw : wrap_int32 1201 = 1201 := by decide
    simp [hw]

/-! ## Theorems on the unsynchronised sample update -/

/-- The stores of `frame_stores`, all performed, give the sample computed by the loop body. -/
theorem loop_body_data_eq_apply_stores (crc : List Nat → Nat) (r : ReadResult) (p : Proc)
    (hfd : 0 ≤ p.drv.serial_fd) (hlen : r.len = 57) (hbytes : r.bytes.length = 57)
    (hlead : leading_ok r.bytes) :
    (DmImu.loop_body crc r p).drv.data = apply_stores p.drv.data (frame_stores crc r.bytes) := by
  have hnot : ¬ p.drv.serial_fd < 0 := by omega
  have hl : r.bytes.getD 0 0 = 0x55 ∧ r.bytes.getD 1 0 = 0xAA ∧ r.bytes.getD 2 0 = 0x01 ∧
      r.bytes.getD 3 0 = 0x01 := hlead
  unfold DmImu.loop_body frame_stores apply_stores
  simp only [hnot, if_false, read_into_full _ _ hbytes, hlen, ne_eq, not_true_eq_false,
    IMU_Receive_Frame.FrameHeader1, IMU_Receive_Frame.flag1, IMU_Receive_Frame.slave_id1,
    IMU_Receive_Frame.reg_acc, hl, and_self, if_true]
  by_cases h1 : crc (IMU_Receive_Frame.span1 r.bytes) = IMU_Receive_Frame.crc1 r.bytes <;>
  by_cases h2 : crc (IMU_Receive_Frame.span2 r.bytes) = IMU_Receive_Frame.crc2 r.bytes <;>
  by_cases h3 : crc (IMU_Receive_Frame.span3 r.bytes) = IMU_Receive_Frame.crc3 r.bytes <;>
  simp [h1, h2, h3, IMU_Data.store]

/-- C10: the claim fails on the code. While the acquisition thread decodes the frame carrying
    acceleration (1.0, 2.0, 3.0) over the stored sample (7, 8, 9, ...), a `getData()` that runs
    after the store to `accx` and before the store to `accy` returns the acceleration triple
    (0x3F800000, 8, 9): neither the previous triple nor the decoded one. With no store done
    it returns the previous sample, with all stores done the sample the iteration leaves. -/
theorem torn_triple_is_observable :
    getData_after sum16 frame_123 running_proc.drv.data 1 =
      ⟨0x3F800000, 8, 9, 10, 11, 12, 13, 14, 15⟩ ∧
    (getData_after sum16 frame_123 running_proc.drv.data 1).triple 0 ≠
      running_proc.drv.data.triple 0 ∧
    (getData_after sum16 frame_123 running_proc.drv.data 1).triple 0 ≠
      (DmImu.loop_body sum16 ⟨57, frame_123⟩ running_proc).drv.data.triple 0 ∧
    getData_after sum16 frame_123 running_proc.drv.data 0 = running_proc.drv.data ∧
    getData_after sum16 frame_123 running_proc.drv.data 9 =
      (DmImu.loop_body sum16 ⟨57, frame_123⟩ running_proc).drv.data := by
  decide

/-! ## Lemmas on traces and on opening the port -/

theorem writes_append (a b : List Event) : writes (a ++ b) = writes a ++ writes b := by
  induction a with
  | nil => rfl
  | cons e t ih => cases e <;> simp [writes, ih]

theorem write_loop_writes (buf : List Nat) (n : Nat) (p : Proc) :
    writes (write_loop buf n p).trace = writes p.trace ++ List.replicate n buf := by
  induction n generalizing p with
  | zero => simp [write_loop]
  | succ n ih =>
    rw [write_loop, ih]
    simp [writes_append, writes, List.replicate_succ]

theorem written_append (a b : List Event) : written (a ++ b) = written a ++ written b := by
  induction a with
  | nil => rfl
  | cons e t ih => cases e <;> simp [written, ih]

theorem write_loop_drv (buf : List Nat) (n : Nat) (p : Proc) :
    (write_loop buf n p).drv = p.drv := by
  induction n generalizing p with
  | zero => rfl
  | succ n ih => rw [write_loop, ih]

/-- Every `write` of the command loop goes to `serial_fd`. -/
theorem write_loop_written (buf : List Nat) (n : Nat) (p : Proc) :
    written (write_loop buf n p).trace =
      written p.trace ++ List.replicate n (p.drv.serial_fd, buf) := by
  induction n generalizing p with
  | zero => simp [write_loop]
  | succ n ih =>
    rw [write_loop, ih]
    simp [written_append, written, List.replicate_succ]

theorem sleep_for_written (ms : Nat) (p : Proc) :
    written (sleep_for ms p).trace = written p.trace := by
  simp [sleep_for, written_append, written]

theorem sleep_for_drv (ms : Nat) (p : Proc) : (sleep_for ms p).drv = p.drv := rfl

theorem sleep_for_writes (ms : Nat) (p : Proc) :
    writes (sleep_for ms p).trace = writes p.trace := by
  simp [sleep_for, writes_append, writes]

/-- When `init_imu_serial` returns: which conditions held and what it did. -/
theorem init_imu_serial_returned (env : Env) (p : Proc) :
    (DmImu.init_imu_serial env p).returned = true ↔
      (0 ≤ env.open_fd ∧ env.tcgetattr_ok = true ∧ p.drv.imu_seial_baud ∈ supported_bauds ∧
        env.tcsetattr_ok = true) := by
  unfold DmImu.init_imu_serial baud_to_speed supported_bauds
  by_cases h0 : env.open_fd < 0
  · simp [h0, Outcome.returned]
  · have h0p : 0 ≤ env.open_fd := by omega
    cases hg : env.tcgetattr_ok <;> cases hs : env.tcsetattr_ok <;>
      by_cases h1 : p.drv.imu_seial_baud = 115200 <;>
      by_cases h2 : p.drv.imu_seial_baud = 230400 <;>
      by_cases h3 : p.drv.imu_seial_baud = 460800 <;>
      by_cases h4 : p.drv.imu_seial_baud = 921600 <;>
      simp [h0, h0p, h1, h2, h3, h4, Outcome.returned]

/-- Effects of `init_imu_serial` that hold on every path. -/
theorem init_imu_serial_effects (env : Env) (p : Proc) :
    (DmImu.init_imu_serial env p).proc.drv = { p.drv with serial_fd := env.open_fd } ∧
    writes (DmImu.init_imu_serial env p).proc.trace = writes p.trace ∧
    closes (DmImu.init_imu_serial env p).proc.trace = closes p.trace ∧
    spawns (DmImu.init_imu_serial env p).proc.trace = spawns p.trace ∧
    joins (DmImu.init_imu_serial env p).proc.trace = joins p.trace := by
  unfold DmImu.init_imu_serial
  by_cases h0 : env.open_fd < 0
  · simp [h0, Outcome.proc, writes_append, writes, closes, spawns, joins]
  · cases hg : env.tcgetattr_ok
    · simp [h0, Outcome.proc, writes_append, writes, closes, spawns, joins]
    · cases hb : baud_to_speed p.drv.imu_seial_baud
      · simp [h0, hb, Outcome.proc, writes_append, writes, closes, spawns, joins]
      · cases hs : env.tcsetattr_ok <;>
          simp [h0, hb, Outcome.proc, writes_append, writes, closes, spawns, joins]

/-- When `init_imu_serial` returns, it has written nothing, the port was opened on a
    non-negative descriptor, and that `open` is the last event before the calls that
    configure it. -/
theorem init_imu_serial_opened (env : Env) (p u : Proc)
    (h : DmImu.init_imu_serial env p = Outcome.ret () u) :
    written u.trace = written p.trace ∧ u.drv.serial_fd = env.open_fd ∧ 0 ≤ env.open_fd ∧
    Event.sys_open p.drv.imu_serial_port env.open_fd ∈ u.trace := by
  unfold DmImu.init_imu_serial at h
  by_cases h0 : env.open_fd < 0
  · simp [h0] at h
  · cases hg : env.tcgetattr_ok
    · simp [h0, hg] at h
    · cases hb : baud_to_speed p.drv.imu_seial_baud
      · simp [h0, hg, hb] at h
      · cases hs : env.tcsetattr_ok
        · simp [h0, hg, hb, hs] at h
        · simp only [h0, hg, hb, hs, if_false, Bool.true_eq_false] at h
          injection h with _ hu
          subst hu
          refine ⟨?_, rfl, by omega, ?_⟩
          · simp [written_append, written]
          · simp

/-- With an unsupported baud rate `init_imu_serial` never reaches `tcsetattr`. -/
theorem init_imu_serial_unsupported (env : Env) (p : Proc)
    (hb : p.drv.imu_seial_baud ∉ supported_bauds) :
    (DmImu.init_imu_serial env p).returned = false ∧
    tcsetattrs (DmImu.init_imu_serial env p).proc.trace = tcsetattrs p.trace ∧
    (0 ≤ env.open_fd → env.tcgetattr_ok = true →
      (DmImu.init_imu_serial env p).proc.trace.getLast? =
        some (Event.print (Diag.unsupported_baud p.drv.imu_seial_baud))) := by
  have hnone : baud_to_speed p.drv.imu_seial_baud = none := by
    unfold baud_to_speed
    simp only [supported_bauds, List.mem_cons, List.mem_singleton, List.not_mem_nil, or_false,
      not_or] at hb
    simp [hb.1, hb.2.1, hb.2.2.1, hb.2.2.2]
  unfold DmImu.init_imu_serial
  by_cases h0 : env.open_fd < 0
  · have : ¬ 0 ≤ env.open_fd := by omega
    simp [h0, this, Outcome.returned, Outcome.proc, tcsetattrs]
  · cases hg : env.tcgetattr_ok <;>
      simp [h0, hnone, Outcome.returned, Outcome.proc, tcsetattrs]

/-! ## Theorems on start, stop, construction -/

/-- What the loop body leaves untouched in the driver object. -/
theorem loop_body_keeps (crc : List Nat → Nat) (r : ReadResult) (p : Proc) :
    (DmImu.loop_body crc r p).drv.serial_fd = p.drv.serial_fd ∧
    (DmImu.loop_body crc r p).drv.stop_thread_ = p.drv.stop_thread_ ∧
    (DmImu.loop_body crc r p).drv.rec_thread = p.drv.rec_thread := by
  unfold DmImu.loop_body
  by_cases hfd : p.drv.serial_fd < 0
  · simp [hfd]
  · simp only [hfd, if_false]
    split
    · simp
    · split
      · simp
      · split <;> simp

/-- The sample an iteration leaves depends on the descriptor, the buffer and the sample
    only. -/
theorem loop_body_data_congr (crc : List Nat → Nat) (r : ReadResult) (p q : Proc)
    (h1 : p.drv.serial_fd = q.drv.serial_fd) (h2 : p.drv.receive_data = q.drv.receive_data)
    (h3 : p.drv.data = q.drv.data) :
    (DmImu.loop_body crc r p).drv.data = (DmImu.loop_body crc r q).drv.data := by
  unfold DmImu.loop_body
  rw [h1, h2, h3]
  by_cases hfd : q.drv.serial_fd < 0
  · simp [hfd, h3]
  · by_cases hlen : r.len = 57
    · by_cases hh : (read_into r.bytes q.drv.receive_data).FrameHeader1 = 0x55 ∧
          (read_into r.bytes q.drv.receive_data).flag1 = 0xAA ∧
          (read_into r.bytes q.drv.receive_data).slave_id1 = 0x01 ∧
          (read_into r.bytes q.drv.receive_data).reg_acc = 0x01
      · simp only [hfd, hlen, hh, if_false, if_true, ne_eq, not_true_eq_false, and_self]
      · by_cases he1 : wrap_int32 (p.error_num + 1) > 1200 <;>
          by_cases he2 : wrap_int32 (q.error_num + 1) > 1200 <;>
          simp only [hfd, hlen, hh, he1, he2, h3, if_false, if_true, ne_eq, not_true_eq_false]
    · simp only [hfd, hlen, h3, if_false, if_true, ne_eq, not_false_eq_true]

theorem closes_append (a b : List Event) : closes (a ++ b) = closes a + closes b := by
  simp [closes, List.filter_append]

/-- The loop body closes nothing. -/
theorem loop_body_closes (crc : List Nat → Nat) (r : ReadResult) (p : Proc) :
    closes (DmImu.loop_body crc r p).trace = closes p.trace := by
  unfold DmImu.loop_body
  by_cases hfd : p.drv.serial_fd < 0
  · simp [hfd, closes_append, closes]
  · simp only [hfd, if_false]
    split
    · simp [closes_append, closes]
    · split
      · simp [closes_append, closes]
      · split <;> simp [closes_append, closes]

/-- A stopped driver is a fixed point of `stop`. -/
theorem stop_of_stopped (crc : List Nat → Nat) (inflight : Option ReadResult) (p : Proc)
    (hflag : p.drv.stop_thread_ = true) (hthread : p.drv.rec_thread = false)
    (hfd : p.drv.serial_fd < 0) : DmImu.stop crc inflight p = p := by
  have hnot : ¬ 0 ≤ p.drv.serial_fd := by omega
  obtain ⟨⟨baud, port, fd, th, flag, rx, d⟩, e, t⟩ := p
  simp only at hflag hthread hnot
  subst hflag hthread
  simp [DmImu.stop, hnot]

/-- C6, as the code has it: `start()` returns exactly when the thread is already running, or
    the port is open, or reopening the port succeeds (otherwise the process exits inside
    `init_imu_serial`). Whenever it returns, it returns true with the thread running; a second
    `start()` right after it returns true and leaves the whole process state, trace included,
    as it is (no thread created, no `open`); at most one thread is created by the two calls,
    so exactly one runs afterwards. -/
theorem start_is_idempotent (env env2 : Env) (p : Proc) :
    ((DmImu.start env p).returned = true ↔
      (p.drv.rec_thread = true ∨ 0 ≤ p.drv.serial_fd ∨
        (DmImu.init_imu_serial env p).returned = true)) ∧
    (∀ (b : Bool) (q : Proc), DmImu.start env p = Outcome.ret b q →
      b = true ∧ q.drv.rec_thread = true ∧
      DmImu.start env2 q = Outcome.ret true q ∧
      spawns q.trace = spawns p.trace + (if p.drv.rec_thread then 0 else 1) ∧
      (running_tasks p.trace = (if p.drv.rec_thread then 1 else 0) →
        running_tasks q.trace = 1)) := by
  have heff := init_imu_serial_effects env p
  unfold DmImu.start
  by_cases hth : p.drv.rec_thread = true
  · simp only [hth, if_true, Outcome.returned, true_or, iff_true, true_and]
    intro b q hq
    injection hq with hb hq
    subst hb hq
    simp [hth, DmImu.start]
  · have hth2 : p.drv.rec_thread = false := by simpa using hth
    simp only [hth2, Bool.false_eq_true, if_false, false_or]
    by_cases hfd : p.drv.serial_fd < 0
    · have hnn : ¬ 0 ≤ p.drv.serial_fd := by omega
      simp only [hfd, if_true, hnn, false_or]
      cases hi : DmImu.init_imu_serial env p with
      | exit q0 => simp [Outcome.returned]
      | ret u q0 =>
        rw [hi] at heff
        simp only [Outcome.proc] at heff
        simp only [Outcome.returned, true_and]
        intro b q hq
        injection hq with hb hq
        subst hb hq
        refine ⟨rfl, rfl, by simp [DmImu.start], ?_, ?_⟩
        · simp [spawns, List.count_append] at heff ⊢
          omega
        · intro hrun
          simp only [running_tasks, spawns, joins, List.count_append] at heff hrun ⊢
          simp at hrun ⊢
          omega
    · have hnn : 0 ≤ p.drv.serial_fd := by omega
      simp only [hfd, if_false, hnn, true_or, Outcome.returned, true_and]
      intro b q hq
      injection hq with hb hq
      subst hb hq
      refine ⟨rfl, rfl, by simp [DmImu.start], ?_, ?_⟩
      · simp [spawns, List.count_append]
      · intro hrun
        simp only [running_tasks, spawns, joins, List.count_append] at hrun ⊢
        simp at hrun ⊢
        omega

/-- C6, on a driver that was constructed and stopped: `start()` reopens the port and creates
    the thread, a second `start()` with the device gone changes nothing. -/
theorem start_is_idempotent_witness :
    DmImu.start env_ok stopped_proc = Outcome.ret true (DmImu.start env_ok stopped_proc).proc ∧
    (DmImu.start env_ok stopped_proc).proc.drv.rec_thread = true ∧
    DmImu.start env_unplugged (DmImu.start env_ok stopped_proc).proc =
      Outcome.ret true (DmImu.start env_ok stopped_proc).proc ∧
    spawns (DmImu.start env_ok stopped_proc).proc.trace =
      spawns stopped_proc.trace + (if stopped_proc.drv.rec_thread then 0 else 1) :=
  have h : DmImu.start env_ok stopped_proc =
      Outcome.ret true (DmImu.start env_ok stopped_proc).proc := by decide
  ⟨h, ((start_is_idempotent env_ok env_unplugged stopped_proc).2 true _ h).2.1,
    ((start_is_idempotent env_ok env_unplugged stopped_proc).2 true _ h).2.2.1,
    ((start_is_idempotent env_ok env_unplugged stopped_proc).2 true _ h).2.2.2.1⟩

/-- C6 as stated fails: on a driver that was constructed and then stopped, with the device
    path no longer openable, `start()` does not return true but ends the process after the
    failed `open`. -/
theorem start_exits_when_reopen_fails :
    (DmImu.start env_unplugged stopped_proc).returned = false ∧
    (¬ ∃ q, DmImu.start env_unplugged stopped_proc = Outcome.ret true q) ∧
    (DmImu.start env_unplugged stopped_proc).proc.trace.getLast? =
      some (Event.print Diag.open_failed) ∧
    spawns (DmImu.start env_unplugged stopped_proc).proc.trace = 0 := by
  refine ⟨by decide, ?_, by decide, by decide⟩
  rintro ⟨q, hq⟩
  have h : (DmImu.start env_unplugged stopped_proc).returned = false := by decide
  rw [hq] at h
  simp [Outcome.returned] at h

/-- C7, as the code has it: from any driver state whose descriptor is -1 or non-negative,
    `stop()` leaves the stop flag set, no joinable thread and `serial_fd = -1`. The stored
    sample is unchanged when no thread was running or no iteration was under way; when the
    thread is in an iteration, `stop()` waits for it and the sample is the one that iteration
    leaves. A second `stop()` leaves the whole state, trace included, unchanged (no second
    `close`, no second `join`), at most one `close` is made, and the destructor does what
    `stop()` does. -/
theorem stop_releases_and_is_idempotent (Get_CRC16 : List Nat → Nat)
    (inflight inflight2 : Option ReadResult) (p : Proc) (hfd : -1 ≤ p.drv.serial_fd) :
    (DmImu.stop Get_CRC16 inflight p).drv.stop_thread_ = true ∧
    (DmImu.stop Get_CRC16 inflight p).drv.rec_thread = false ∧
    (DmImu.stop Get_CRC16 inflight p).drv.serial_fd = -1 ∧
    (p.drv.rec_thread = false ∨ inflight = none →
      (DmImu.stop Get_CRC16 inflight p).drv.data = p.drv.data) ∧
    (∀ r : ReadResult, p.drv.rec_thread = true → inflight = some r →
      (DmImu.stop Get_CRC16 inflight p).drv.data = (DmImu.loop_body Get_CRC16 r p).drv.data) ∧
    DmImu.stop Get_CRC16 inflight2 (DmImu.stop Get_CRC16 inflight p) =
      DmImu.stop Get_CRC16 inflight p ∧
    closes (DmImu.stop Get_CRC16 inflight2 (DmImu.stop Get_CRC16 inflight p)).trace ≤
      closes p.trace + 1 ∧
    DmImu.destruct Get_CRC16 inflight p = DmImu.stop Get_CRC16 inflight p := by
  have hflag : (DmImu.stop Get_CRC16 inflight p).drv.stop_thread_ = true := by
    unfold DmImu.stop
    cases hth : p.drv.rec_thread <;> cases inflight <;>
      by_cases h0 : 0 ≤ p.drv.serial_fd <;>
      simp [hth, h0, (loop_body_keeps Get_CRC16 _ _).1, (loop_body_keeps Get_CRC16 _ _).2.1]
  have hthread : (DmImu.stop Get_CRC16 inflight p).drv.rec_thread = false := by
    unfold DmImu.stop
    cases hth : p.drv.rec_thread <;> cases inflight <;>
      by_cases h0 : 0 ≤ p.drv.serial_fd <;>
      simp [hth, h0, (loop_body_keeps Get_CRC16 _ _).1]
  have hclosed : (DmImu.stop Get_CRC16 inflight p).drv.serial_fd = -1 := by
    unfold DmImu.stop
    cases hth : p.drv.rec_thread <;> cases inflight <;>
      by_cases h0 : 0 ≤ p.drv.serial_fd <;>
      simp [hth, h0, (loop_body_keeps Get_CRC16 _ _).1] <;> omega
  have hidem : DmImu.stop Get_CRC16 inflight2 (DmImu.stop Get_CRC16 inflight p) =
      DmImu.stop Get_CRC16 inflight p :=
    stop_of_stopped Get_CRC16 inflight2 _ hflag hthread (by rw [hclosed]; decide)
  refine ⟨hflag, hthread, hclosed, ?_, ?_, hidem, ?_, ?_⟩
  · intro h
    unfold DmImu.stop
    rcases h with h | h
    · by_cases h0 : 0 ≤ p.drv.serial_fd <;> simp [h, h0]
    · subst h
      cases hth : p.drv.rec_thread <;> by_cases h0 : 0 ≤ p.drv.serial_fd <;> simp [hth, h0]
  · intro r hth hr
    subst hr
    unfold DmImu.stop
    by_cases h0 : 0 ≤ p.drv.serial_fd <;>
      simp only [hth, h0, if_true, if_false, (loop_body_keeps Get_CRC16 _ _).1] <;>
      exact loop_body_data_congr Get_CRC16 r _ _ rfl rfl rfl
  · rw [hidem]
    unfold DmImu.stop
    cases hth : p.drv.rec_thread <;> cases inflight <;>
      by_cases h0 : 0 ≤ p.drv.serial_fd <;>
      simp only [hth, h0, if_true, if_false, Bool.false_eq_true,
        (loop_body_keeps Get_CRC16 _ _).1, closes_append, loop_body_closes] <;>
      simp [closes]
  · unfold DmImu.destruct
    simp [hclosed]

/-- C7, on the running driver with a full valid frame being read when `stop()` is called. -/
theorem stop_releases_and_is_idempotent_witness :
    -1 ≤ running_proc.drv.serial_fd ∧
    (DmImu.stop sum16 (some ⟨57, frame_123⟩) running_proc).drv.serial_fd = -1 ∧
    DmImu.stop sum16 none (DmImu.stop sum16 (some ⟨57, frame_123⟩) running_proc) =
      DmImu.stop sum16 (some ⟨57, frame_123⟩) running_proc :=
  ⟨by decide,
   (stop_releases_and_is_idempotent sum16 (some ⟨57, frame_123⟩) none running_proc
      (by decide)).2.2.1,
   (stop_releases_and_is_idempotent sum16 (some ⟨57, frame_123⟩) none running_proc
      (by decide)).2.2.2.2.2.1⟩

/-- C7 as stated fails in the running state: when the acquisition thread is reading the frame
    carrying acceleration (1.0, 2.0, 3.0) at the time `stop()` is called, `stop()` joins the
    thread after that iteration, and the stored sample differs from the one before the call. -/
theorem stop_lets_inflight_frame_update_sample :
    running_proc.drv.rec_thread = true ∧
    (DmImu.stop sum16 (some ⟨57, frame_123⟩) running_proc).drv.data ≠ running_proc.drv.data ∧
    (DmImu.stop sum16 (some ⟨57, frame_123⟩) running_proc).drv.data =
      ⟨0x3F800000, 0x40000000, 0x40400000, 0, 0, 0, 0, 0, 0⟩ := by
  decide

/-- The constructor returns exactly when `init_imu_serial` does, and otherwise exits in the
    state `init_imu_serial` exits in. -/
theorem construct_outcome (env : Env) (port : String) (baud : Int) :
    (DmImu.construct env port baud).returned =
      (DmImu.init_imu_serial env (DmImu.initial port baud)).returned ∧
    ((DmImu.init_imu_serial env (DmImu.initial port baud)).returned = false →
      (DmImu.construct env port baud).proc =
        (DmImu.init_imu_serial env (DmImu.initial port baud)).proc) := by
  unfold DmImu.construct
  cases hi : DmImu.init_imu_serial env (DmImu.initial port baud) <;>
    simp [Outcome.returned, Outcome.proc]

/-- C8: for every construction that returns, the buffers written are exactly 40: each of the
    eight commands, in the order of `config_opcodes`, five times in succession as the same
    buffer 0xAA, opcode bytes, 0x0D; the restart command 0x00, 0x00 is not among them. Every
    one of the 40 `write` calls is made on the transport: the descriptor that `open` returned
    for the port path, which is the one held in `serial_fd`. -/
theorem construct_writes_forty_commands (env : Env) (port : String) (baud : Int)
    (h : (DmImu.construct env port baud).returned = true) :
    writes (DmImu.construct env port baud).proc.trace =
      config_opcodes.flatMap (fun op => List.replicate 5 (framed op)) ∧
    (writes (DmImu.construct env port baud).proc.trace).length = 40 ∧
    framed [0x00, 0x00] ∉ writes (DmImu.construct env port baud).proc.trace ∧
    written (DmImu.construct env port baud).proc.trace =
      (config_opcodes.flatMap (fun op => List.replicate 5 (framed op))).map
        (fun buf => (env.open_fd, buf)) ∧
    0 ≤ env.open_fd ∧
    Event.sys_open port env.open_fd ∈ (DmImu.construct env port baud).proc.trace ∧
    (DmImu.construct env port baud).proc.drv.serial_fd = env.open_fd := by
  have heff := (init_imu_serial_effects env (DmImu.initial port baud)).2.1
  have hw : writes (DmImu.construct env port baud).proc.trace =
      config_opcodes.flatMap (fun op => List.replicate 5 (framed op)) := by
    unfold DmImu.construct at h ⊢
    cases hi : DmImu.init_imu_serial env (DmImu.initial port baud) with
    | exit q => rw [hi] at h; simp [Outcome.returned] at h
    | ret u p0 =>
      rw [hi] at heff
      have h0 : writes p0.trace = [] := by simpa [Outcome.proc, DmImu.initial, writes] using heff
      simp only [Outcome.proc, sleep_for_writes, write_loop_writes, DmImu.enter_setting_mode,
        DmImu.turn_on_accel, DmImu.turn_on_gyro, DmImu.turn_on_euler, DmImu.turn_off_quat,
        DmImu.set_output_1000HZ, DmImu.save_imu_para, DmImu.exit_setting_mode, h0]
      decide
  have hfdw : written (DmImu.construct env port baud).proc.trace =
        (config_opcodes.flatMap (fun op => List.replicate 5 (framed op))).map
          (fun buf => (env.open_fd, buf)) ∧
      0 ≤ env.open_fd ∧
      Event.sys_open port env.open_fd ∈ (DmImu.construct env port baud).proc.trace ∧
      (DmImu.construct env port baud).proc.drv.serial_fd = env.open_fd := by
    unfold DmImu.construct at h ⊢
    cases hi : DmImu.init_imu_serial env (DmImu.initial port baud) with
    | exit q => rw [hi] at h; simp [Outcome.returned] at h
    | ret u p0 =>
      obtain ⟨h0, hfd, hnn, hopen⟩ := init_imu_serial_opened env (DmImu.initial port baud) p0 hi
      have h0w : written p0.trace = [] := by simpa [DmImu.initial, written] using h0
      have hport : (DmImu.initial port baud).drv.imu_serial_port = port := rfl
      rw [hport] at hopen
      refine ⟨?_, hnn, ?_, ?_⟩
      · simp only [Outcome.proc, sleep_for_written, sleep_for_drv, write_loop_written,
          write_loop_drv, DmImu.enter_setting_mode, DmImu.turn_on_accel, DmImu.turn_on_gyro,
          DmImu.turn_on_euler, DmImu.turn_off_quat, DmImu.set_output_1000HZ,
          DmImu.save_imu_para, DmImu.exit_setting_mode, h0w, hfd]
        rfl
      · simp only [Outcome.proc, sleep_for, write_loop, DmImu.enter_setting_mode,
          DmImu.turn_on_accel, DmImu.turn_on_gyro, DmImu.turn_on_euler, DmImu.turn_off_quat,
          DmImu.set_output_1000HZ, DmImu.save_imu_para, DmImu.exit_setting_mode]
        simp [hopen]
      · simp only [Outcome.proc, sleep_for_drv, write_loop_drv, DmImu.enter_setting_mode,
          DmImu.turn_on_accel, DmImu.turn_on_gyro, DmImu.turn_on_euler, DmImu.turn_off_quat,
          DmImu.set_output_1000HZ, DmImu.save_imu_para, DmImu.exit_setting_mode, hfd]
  refine ⟨hw, ?_, ?_, hfdw⟩
  · rw [hw]; decide
  · rw [hw]; decide

/-- C8, on the construction with the default port and 921600 baud: 40 buffers, the first
    write being the enter-setting-mode command on descriptor 3, the one `open` returned. -/
theorem construct_writes_forty_commands_witness :
    (DmImu.construct env_ok "/dev/ttyACM1" 921600).returned = true ∧
    (writes (DmImu.construct env_ok "/dev/ttyACM1" 921600).proc.trace).length = 40 ∧
    (written (DmImu.construct env_ok "/dev/ttyACM1" 921600).proc.trace).head? =
      some (3, [0xAA, 0x06, 0x01, 0x0D]) ∧
    written (DmImu.construct env_ok "/dev/ttyACM1" 921600).proc.trace =
      (config_opcodes.flatMap (fun op => List.replicate 5 (framed op))).map
        (fun buf => (env_ok.open_fd, buf)) :=
  ⟨by decide, (construct_writes_forty_commands env_ok "/dev/ttyACM1" 921600 (by decide)).2.1,
   by decide,
   (construct_writes_forty_commands env_ok "/dev/ttyACM1" 921600 (by decide)).2.2.2.1⟩

/-- C9, as the code has it: on a device path that opens, the constructor returns exactly when
    `tcgetattr` succeeds, the baud rate is one of 115200, 230400, 460800, 921600 and
    `tcsetattr` succeeds. With any other baud rate the process exits: no `tcsetattr` is
    made, no command is written, the diagnostic is the unsupported-baud one when `tcgetattr`
    succeeded; the port has been opened, its descriptor is in `serial_fd` and no `close` is
    made. -/
theorem unsupported_baud_exits_before_configuration (env : Env) (port : String) (baud : Int)
    (hopen : 0 ≤ env.open_fd) :
    ((DmImu.construct env port baud).returned = true ↔
      (env.tcgetattr_ok = true ∧ baud ∈ supported_bauds ∧ env.tcsetattr_ok = true)) ∧
    (baud ∉ supported_bauds →
      (DmImu.construct env port baud).returned = false ∧
      tcsetattrs (DmImu.construct env port baud).proc.trace = 0 ∧
      writes (DmImu.construct env port baud).proc.trace = [] ∧
      (env.tcgetattr_ok = true →
        (DmImu.construct env port baud).proc.trace.getLast? =
          some (Event.print (Diag.unsupported_baud baud))) ∧
      opens (DmImu.construct env port baud).proc.trace = 1 ∧
      (DmImu.construct env port baud).proc.drv.serial_fd = env.open_fd ∧
      closes (DmImu.construct env port baud).proc.trace = 0) := by
  have hc := construct_outcome env port baud
  have hr := init_imu_serial_returned env (DmImu.initial port baud)
  have he := init_imu_serial_effects env (DmImu.initial port baud)
  have hbaud : (DmImu.initial port baud).drv.imu_seial_baud = baud := rfl
  rw [hbaud] at hr
  constructor
  · rw [hc.1, hr]
    simp [hopen]
  · intro hb
    have hu := init_imu_serial_unsupported env (DmImu.initial port baud) (by rw [hbaud]; exact hb)
    rw [hbaud] at hu
    have hproc := hc.2 hu.1
    rw [hc.1, hproc]
    refine ⟨hu.1, ?_, ?_, ?_, ?_, ?_, ?_⟩
    · rw [hu.2.1]; rfl
    · rw [he.2.1]; rfl
    · exact hu.2.2 hopen
    · have hnone : baud_to_speed baud = none := by
        unfold baud_to_speed
        simp only [supported_bauds, List.mem_cons, List.mem_singleton, List.not_mem_nil,
          or_false, not_or] at hb
        simp [hb.1, hb.2.1, hb.2.2.1, hb.2.2.2]
      have h0 : ¬ env.open_fd < 0 := by omega
      unfold DmImu.init_imu_serial
      cases hg : env.tcgetattr_ok <;>
        simp [h0, hbaud, hnone, Outcome.proc, opens, DmImu.initial]
    · rw [he.1]
    · rw [he.2.2.1]; rfl

/-- C9, on the construction with 9600 baud on a device that opens on descriptor 3. -/
theorem unsupported_baud_exits_before_configuration_witness :
    (0 ≤ env_ok.open_fd ∧ (9600 : Int) ∉ supported_bauds) ∧
    (DmImu.construct env_ok "/dev/ttyACM1" 9600).returned = false ∧
    tcsetattrs (DmImu.construct env_ok "/dev/ttyACM1" 9600).proc.trace = 0 ∧
    writes (DmImu.construct env_ok "/dev/ttyACM1" 9600).proc.trace = [] :=
  ⟨by decide,
   ((unsupported_baud_exits_before_configuration env_ok "/dev/ttyACM1" 9600 (by decide)).2
      (by decide)).1,
   ((unsupported_baud_exits_before_configuration env_ok "/dev/ttyACM1" 9600 (by decide)).2
      (by decide)).2.1,
   ((unsupported_baud_exits_before_configuration env_ok "/dev/ttyACM1" 9600 (by decide)).2
      (by decide)).2.2.1⟩

/-- C9 as stated fails: with 9600 baud on a device that opens on descriptor 3 the process
    exits with the port opened, the descriptor stored in `serial_fd` and never closed; and
    with the supported 921600 baud on a device that opens but rejects `tcsetattr`, the
    constructor does not succeed either. -/
theorem unsupported_baud_leaves_port_open :
    ((DmImu.construct env_ok "/dev/ttyACM1" 9600).returned = false ∧
      (DmImu.construct env_ok "/dev/ttyACM1" 9600).proc.drv.serial_fd = 3 ∧
      opens (DmImu.construct env_ok "/dev/ttyACM1" 9600).proc.trace = 1 ∧
      closes (DmImu.construct env_ok "/dev/ttyACM1" 9600).proc.trace = 0) ∧
    ((921600 : Int) ∈ supported_bauds ∧
      (DmImu.construct ⟨3, true, false⟩ "/dev/ttyACM1" 921600).returned = false) := by
  decide

end dmbot_serial
